import Mathlib

/-!
Shallow embedding of the terra task framework: src/terra/__init__.py
(run lifecycle, run directory allocation, artifact group dump) and
src/terra/io.py (type codec registry).  Python values are modelled by the
inductive Value, Python exceptions by PyExc, mutable machine state
(environment variables, the run index, the filesystem listing of run
directories) by World, and observable side effects by an event trace.
-/

/-- Python runtime values, as far as the embedded code inspects them.
Opaque objects that the lifecycle only passes around are modelled by
an identity tag. -/
inductive Value where
  | none
  | bool (b : Bool)
  | int (n : Int)
  | str (s : String)
  | tup (a b : Value)
  | obj (id : Nat)
deriving Repr, DecidableEq

/-- Python exceptions raised by the embedded code.  The constructor
exception stands for an arbitrary user exception (an Exception subclass)
with an identity tag. -/
inductive PyExc where
  | valueError (msg : String)
  | keyError (k : String)
  | keyboardInterrupt
  | exception (n : Nat)
deriving Repr, DecidableEq

/-- Python equality on the embedded values: structural within a type,
numeric across bool and int (in Python, True == 1), false across other
type combinations (in particular a str never equals an int). -/
def pyEq : Value → Value → Bool
  | Value.none, Value.none => true
  | Value.bool a, Value.bool b => a == b
  | Value.bool a, Value.int n => (if a then (1 : Int) else 0) == n
  | Value.int n, Value.bool a => n == (if a then (1 : Int) else 0)
  | Value.int a, Value.int b => a == b
  | Value.str a, Value.str b => a == b
  | Value.tup a b, Value.tup c d => pyEq a c && pyEq b d
  | Value.obj a, Value.obj b => a == b
  | _, _ => false

/-- Python inequality, the != operator. -/
def pyNe (a b : Value) : Bool := !pyEq a b

/-- Python truthiness of a value. -/
def pyTruthy : Value → Bool
  | Value.none => false
  | Value.bool b => b
  | Value.int n => n != 0
  | Value.str s => !s.isEmpty
  | Value.tup _ _ => true
  | Value.obj _ => true

/-- A Python dict with string keys, modelled as an association list in
insertion order (Python dicts preserve insertion order). -/
abbrev ArgDict := List (String × Value)

/-- Membership test, the Python expression k in d. -/
def dictContains (d : ArgDict) (k : String) : Bool :=
  d.any (fun p => p.1 == k)

/-- Lookup, d.get(k). -/
def dictGet? (d : ArgDict) (k : String) : Option Value :=
  (d.find? (fun p => p.1 == k)).map (fun p => p.2)

/-- Assignment d[k] = v: replaces the value in place when the key exists,
otherwise appends at the end, as Python dicts do. -/
def dictSet (d : ArgDict) (k : String) (v : Value) : ArgDict :=
  if dictContains d k then
    d.map (fun p => if p.1 == k then (k, v) else p)
  else d ++ [(k, v)]

/-- d.pop(k, default): returns the value (or the default) and the dict
without the key. -/
def dictPop (d : ArgDict) (k : String) (dflt : Value) : Value × ArgDict :=
  ((match dictGet? d k with
    | Option.some v => v
    | Option.none => dflt),
   d.filter (fun p => !(p.1 == k)))

/-- Dict merge, Python double-star merge of a then b: keys of a keep their
position (values of shared keys taken from b), new keys of b follow. -/
def dictMerge (a b : ArgDict) : ArgDict :=
  (a.map (fun p =>
    match dictGet? b p.1 with
    | Option.some v => (p.1, v)
    | Option.none => p)) ++
  b.filter (fun q => !(dictContains a q.1))

/-- os.environ, an association list of string pairs. -/
abbrev Env := List (String × String)

/-- k in os.environ. -/
def envContains (env : Env) (k : String) : Bool :=
  env.any (fun p => p.1 == k)

/-- os.environ[k] with a default, used only where containment was already
checked. -/
def envGetD (env : Env) (k : String) : String :=
  ((env.find? (fun p => p.1 == k)).map (fun p => p.2)).getD ""

/-- os.environ[k], raising KeyError when the variable is absent. -/
def envGet (env : Env) (k : String) : Except PyExc String :=
  match env.find? (fun p => p.1 == k) with
  | Option.some p => Except.ok p.2
  | Option.none => Except.error (PyExc.keyError k)

/-- os.environ[k] = v. -/
def envSet : Env → String → String → Env
  | [], k, v => [(k, v)]
  | p :: rest, k, v =>
    if p.1 == k then (k, v) :: rest else p :: envSet rest k v

/-! ## Run directory allocation (src/terra/__init__.py lines 400-416)

The source names carry a single leading underscore; Lean identifiers
cannot start with an underscore, so the embedded names drop it. -/

/-- _get_run_dir: pure path composition os.path.join(task_dir, runs
subdirectory, str(idx)); no existence check. -/
def get_run_dir (taskDir : String) (idx : Nat) : String :=
  taskDir ++ "/_runs/" ++ toString idx

/-- Python str.split on an underscore, first component: the prefix of the
string before the first underscore (the whole string when there is none). -/
def takeUntilUnderscore : List Char → List Char
  | [] => []
  | c :: rest => if c = '_' then [] else c :: takeUntilUnderscore rest

/-- s.split of an underscore, index 0. -/
def splitUnderscoreHead (s : String) : String :=
  String.mk (takeUntilUnderscore s.data)

/-- Python str.isdigit, restricted to the ASCII directory names the
allocator deals with: nonempty and all decimal digits. -/
def pyIsdigit (s : String) : Bool :=
  !s.isEmpty && s.data.all Char.isDigit

/-- Valid tail of a Python integer literal after its first digit: digits
in which a single underscore may stand between two digits (no leading,
trailing or doubled underscore). -/
def pyDigitTail : List Char → Bool
  | [] => true
  | '_' :: rest =>
    match rest with
    | [] => false
    | c :: rest2 => c.isDigit && pyDigitTail rest2
  | c :: rest => c.isDigit && pyDigitTail rest

/-- Whole digit part of a Python integer literal: nonempty, starts with a
digit, then a valid tail. -/
def pyDigits : List Char → Bool
  | [] => false
  | c :: rest => c.isDigit && pyDigitTail rest

/-- Numeric value of a digit string, skipping grouping underscores. -/
def pyNatVal (cs : List Char) : Nat :=
  cs.foldl (fun a c => if c = '_' then a else a * 10 + (c.toNat - 48)) 0

/-- Python int(s) on a directory-entry name: optional sign followed by a
digit group with single underscores between digits; anything else raises
ValueError (surrounding whitespace, absent from directory names, is not
modelled). -/
def pyInt? (s : String) : Option Int :=
  match s.data with
  | '+' :: cs => if pyDigits cs then Option.some (Int.ofNat (pyNatVal cs)) else Option.none
  | '-' :: cs => if pyDigits cs then Option.some (-(Int.ofNat (pyNatVal cs))) else Option.none
  | cs => if pyDigits cs then Option.some (Int.ofNat (pyNatVal cs)) else Option.none

/-- Python max over a list: None is never returned by Python max, so the
empty case (guarded in the source by the emptiness check) maps to none
here only to give the caller the combined shape it uses. -/
def pyMax : List Int → Option Int
  | [] => Option.none
  | x :: xs => Option.some (xs.foldl max x)

/-- The list comprehension of _get_latest_run_id: keeps every entry whose
prefix before the first underscore is all digits, and converts the FULL
entry name with int(); a kept entry whose full name is not a valid integer
literal makes int() raise ValueError. -/
def collectRunIds : List String → Except PyExc (List Int)
  | [] => Except.ok []
  | s :: rest =>
    if pyIsdigit (splitUnderscoreHead s) then
      match pyInt? s with
      | Option.some n => (collectRunIds rest).map (fun ids => n :: ids)
      | Option.none =>
        Except.error (PyExc.valueError ("invalid literal for int with base 10: " ++ s))
    else collectRunIds rest

/-- _get_latest_run_id: the argument is the listing of taskDir/_runs
(none when that directory is absent).  Returns None when the directory is
absent or no entry qualifies, otherwise the max of the converted ids;
propagates the ValueError of a failing conversion. -/
def get_latest_run_id (listing : Option (List String)) : Except PyExc (Option Int) :=
  match listing with
  | Option.none => Except.ok Option.none
  | Option.some entries => (collectRunIds entries).map pyMax

/-- Qualifying entries of a listing together with their parsed values,
used to state the amended behaviour of get_latest_run_id. -/
def parsedIds (entries : List String) : List Int :=
  entries.filterMap (fun s =>
    if pyIsdigit (splitUnderscoreHead s) then pyInt? s else Option.none)

/-! ## Type codec registry (src/terra/io.py lines 87-125) -/

/-- Values flowing through the io registry.  Python type identity is a
name; bool is a distinct runtime type from int even though bool is a
subclass of int. -/
inductive IoVal where
  | vInt (n : Int)
  | vBool (b : Bool)
  | vDataFrame (d : Nat)
  | vNdarray (a : Nat)
  | vOther (t : String) (x : Nat)
deriving Repr, DecidableEq

/-- Python type(v): the exact runtime type, never a supertype. -/
def typeOf : IoVal → String
  | IoVal.vInt _ => "int"
  | IoVal.vBool _ => "bool"
  | IoVal.vDataFrame _ => "DataFrame"
  | IoVal.vNdarray _ => "ndarray"
  | IoVal.vOther t _ => t

/-- Python isinstance against the relevant part of the numeric tower:
a bool is an instance of int (bool subclasses int), everything else only
of its own type.  Used to state that the registry does NOT do this kind
of subtype matching. -/
def isInstanceOf (v : IoVal) (t : String) : Bool :=
  typeOf v == t || (typeOf v == "bool" && t == "int")

/-- A writer takes the value and a base path and returns the final path,
or none when it has no return statement (Python None). -/
abbrev IoWriter := IoVal → String → Option String

/-- A reader takes the stored path and produces a value. -/
abbrev IoReader := String → IoVal

/-- Registry lookup: a Python dict keyed by type.  Registration replaces
in place, so a plain first-match lookup is the dict access. -/
def regLookup {α : Type} (reg : List (String × α)) (t : String) : Option α :=
  (reg.find? (fun p => p.1 == t)).map (fun p => p.2)

/-- writer / reader registration: dict assignment, last one wins. -/
def regInsert {α : Type} (reg : List (String × α)) (t : String) (f : α) :
    List (String × α) :=
  if reg.any (fun p => p.1 == t) then
    reg.map (fun p => if p.1 == t then (t, f) else p)
  else reg ++ [(t, f)]

/-- generalized_write: exact lookup of type(out) in the writer registry;
ValueError when absent; the base path when the writer returned None, else
the path the writer returned. -/
def generalized_write (reg : List (String × IoWriter)) (out : IoVal)
    (path : String) : Except PyExc String :=
  match regLookup reg (typeOf out) with
  | Option.none =>
    Except.error (PyExc.valueError ("Type " ++ typeOf out ++ " not supported."))
  | Option.some w =>
    match w out path with
    | Option.none => Except.ok path
    | Option.some newPath => Except.ok newPath

/-- generalized_read: exact lookup of the requested type in the reader
registry; ValueError when absent. -/
def generalized_read (reg : List (String × IoReader)) (path : String)
    (readType : String) : Except PyExc IoVal :=
  match regLookup reg readType with
  | Option.none =>
    Except.error (PyExc.valueError ("Object type " ++ readType ++ " not supported."))
  | Option.some r => Except.ok (r path)

/-! ## Run lifecycle (src/terra/__init__.py, Task._run, lines 146-304)

The external collaborators excluded by the repository (git status, log
and notification sinks, the relational run index) are modelled as trace
events plus, for the run index, explicit rows in the World.  The index id
assignment lives in terra.database, which is not part of src/; it is
modelled from the spec below (see createRunId). -/

/-- Terminal and initial run states of the lifecycle state machine. -/
inductive RunStatus where
  | in_progress
  | success
  | failure
  | interrupted
deriving Repr, DecidableEq

/-- A row of the external run index, restricted to the fields Task._run
writes.  The timestamps and git payloads are abstracted to flags saying
whether the field was recorded. -/
structure RunRow where
  id : Nat
  status : RunStatus
  run_dir : Option String := Option.none
  git_logged : Bool := false
  end_time : Bool := false
deriving Repr, DecidableEq

/-- Machine state seen by Task._run: the environment variables, the run
index (next id to assign plus committed rows) and the set of existing run
directories of this task, listed by run id. -/
structure World where
  env : Env
  nextRunId : Nat
  runs : List RunRow
  fsDirs : List Nat
deriving Repr, DecidableEq

/-- Observable side effects of one invocation, in order of occurrence. -/
inductive Event where
  | sessionOpen
  | sessionCommit
  | sessionClose
  | configUpdate
  | envPublish (runDir : String)
  | dirCreate (id : Nat)
  | gitLog (id : Nat)
  | srcLog (id : Nat)
  | metaWrite (id : Nat)
  | inputsWrite (id : Nat) (args : ArgDict)
  | logInit (id : Nat)
  | notifyInit (id : Nat)
  | printStart (id : Nat)
  | outputsWrite (id : Nat) (v : Value)
  | notifyCompleted (id : Nat)
  | notifyError (id : Nat)
  | printTrace
deriving Repr, DecidableEq

/-- Event classifiers used to state the side-effect claims. -/
def Event.isMetaWrite : Event → Bool
  | Event.metaWrite _ => true
  | _ => false

def Event.isInputsWrite : Event → Bool
  | Event.inputsWrite _ _ => true
  | _ => false

def Event.isLogInit : Event → Bool
  | Event.logInit _ => true
  | _ => false

def Event.isNotifyInit : Event → Bool
  | Event.notifyInit _ => true
  | _ => false

def Event.isNotifyCompleted : Event → Bool
  | Event.notifyCompleted _ => true
  | _ => false

def Event.isDirCreate : Event → Bool
  | Event.dirCreate _ => true
  | _ => false

def Event.isOutputsWrite : Event → Bool
  | Event.outputsWrite _ _ => true
  | _ => false

/-- session.commit on the ORM row: the index persists the current state
of the row, replacing the row with the same primary key or inserting it. -/
def upsertRow (r : RunRow) : List RunRow → List RunRow
  | [] => [r]
  | q :: rest => if q.id == r.id then r :: rest else q :: upsertRow r rest

/-- Commit the row into the index of a world. -/
def commitRun (w : World) (r : RunRow) : World :=
  { w with runs := upsertRow r w.runs }

/-- Modelled from the spec: terra.database (the external run index, the
createRun operation of section 6) is not under src/; per sections 4.4 and
8 of the spec the index hands out per-task sequential run ids, the next
one after the history so far, starting at 0.  The world carries that
counter explicitly. -/
def createRunId (w : World) : Nat := w.nextRunId

/-- io.json_dump as called for outputs.json: it writes the document (the
caller records the event) and, having no return statement in the source,
evaluates to Python None. -/
def json_dump (v : Value) (id : Nat) : Value × Event :=
  (Value.none, Event.outputsWrite id v)

/-- Lines 239-246: replace every argument named in no_dump_args by the
placeholder string before dumping inputs.json. -/
def argsToDump (noDump : Option (List String)) (args : ArgDict) : ArgDict :=
  match noDump with
  | Option.none => args
  | Option.some ks =>
    args.map (fun p => if ks.contains p.1 then (p.1, Value.str "__skipped__") else p)

/-- The dict comprehension of line 260: select the named keys from the
argument dict, raising KeyError when one is absent. -/
def selectArgs (d : ArgDict) : List String → Except PyExc ArgDict
  | [] => Except.ok []
  | k :: ks =>
    match dictGet? d k with
    | Option.none => Except.error (PyExc.keyError k)
    | Option.some v => (selectArgs d ks).map (fun rest => (k, v) :: rest)

/-- Lines 257-271: resolve artifact inputs.  load_nested_artifacts is
defined in terra.io in the repository but absent from the src/ copy of
io.py, so it is passed in as a function parameter (the lifecycle treats
it as opaque); with a no-load set the kept arguments are merged in front
of the resolved rest. -/
def resolveArgs (noLoad : Option (List String)) (loadNested : ArgDict → ArgDict)
    (d : ArgDict) : Except PyExc ArgDict :=
  match noLoad with
  | Option.none => Except.ok (loadNested d)
  | Option.some ks =>
    (selectArgs d ks).map (fun kept =>
      dictMerge kept (loadNested (d.filter (fun p => !(ks.contains p.1)))))

/-- The try block of Task._run, lines 197-287.  Returns the result of the
block (ok value or the raised exception), the ORM row as mutated so far,
the world and the events, all as of the point where the block finished or
raised. -/
def runTry (fn : ArgDict → Except PyExc Value) (isMain : Bool)
    (noDump noLoad : Option (List String)) (loadNested : ArgDict → ArgDict)
    (taskDir : String) (args0 : ArgDict) (r0 : RunRow) (w0 : World) :
    Except PyExc Value × RunRow × World × List Event :=
  let runDir := get_run_dir taskDir r0.id
  let w1 := { w0 with env := envSet w0.env "RANK_0_RUN_DIR" runDir }
  let ev1 := [Event.envPublish runDir]
  let args1 := if dictContains args0 "run_dir" then
      dictSet args0 "run_dir" (Value.str runDir)
    else args0
  if w1.fsDirs.contains r0.id then
    (Except.error (PyExc.valueError ("Run already exists at " ++ runDir ++ ".")),
     r0, w1, ev1)
  else
    let w2 := { w1 with fsDirs := r0.id :: w1.fsDirs }
    let ev2 := ev1 ++ [Event.dirCreate r0.id]
    let r1 := { r0 with run_dir := Option.some runDir }
    let ev3 := ev2 ++ [Event.gitLog r0.id]
    let r2 := { r1 with git_logged := true }
    let ev4 := if isMain then ev3 ++ [Event.srcLog r0.id] else ev3
    let w3 := commitRun w2 r2
    let ev5 := ev4 ++ [Event.sessionCommit]
    let ev6 := ev5 ++ [Event.metaWrite r0.id]
    let ev7 := ev6 ++ [Event.inputsWrite r0.id (argsToDump noDump args1)]
    let ev8 := ev7 ++ [Event.logInit r0.id, Event.notifyInit r0.id, Event.printStart r0.id]
    match resolveArgs noLoad loadNested args1 with
    | Except.error e => (Except.error e, r2, w3, ev8)
    | Except.ok argsR =>
      match fn argsR with
      | Except.error e => (Except.error e, r2, w3, ev8)
      | Except.ok out =>
        let step :=
          if out = Value.none then (out, ev8)
          else
            let d := json_dump out r0.id
            (d.1, ev8 ++ [d.2])
        let ev9 := step.2 ++ [Event.notifyCompleted r0.id]
        let r3 := { r2 with status := RunStatus.success, end_time := true }
        let w4 := commitRun w3 r3
        (Except.ok step.1, r3, w4, ev9 ++ [Event.sessionCommit])

/-- Lines 176-304 of Task._run: everything after the silencing decision
has been taken in favour of recording.  rri is the popped return_run_id
value. -/
def runMain (fn : ArgDict → Except PyExc Value) (isMain : Bool)
    (noDump noLoad : Option (List String)) (loadNested : ArgDict → ArgDict)
    (taskDir : String) (rri : Value) (args : ArgDict) (w : World) :
    Except PyExc Value × World × List Event :=
  let cfg := dictContains args "terra_config"
  let args1 := (dictPop args "terra_config" Value.none).2
  let ev0 := (if cfg then [Event.configUpdate] else []) ++ [Event.sessionOpen]
  let rid := createRunId w
  let r0 : RunRow := { id := rid, status := RunStatus.in_progress }
  let w1 := { commitRun w r0 with nextRunId := rid + 1 }
  let ev1 := ev0 ++ [Event.sessionCommit]
  match runTry fn isMain noDump noLoad loadNested taskDir args1 r0 w1 with
  | (Except.ok out, _, w2, evT) =>
    let out2 := if pyTruthy rri then
        (if out = Value.none then Value.int (Int.ofNat rid)
         else Value.tup (Value.int (Int.ofNat rid)) out)
      else out
    (Except.ok out2, w2, ev1 ++ evT ++ [Event.sessionClose])
  | (Except.error e, r, w2, evT) =>
    let ev2 := evT ++ [Event.notifyError rid]
    let r2 := { r with
      status := if e = PyExc.keyboardInterrupt then RunStatus.interrupted
                else RunStatus.failure,
      end_time := true }
    let w3 := commitRun w2 r2
    (Except.error e, w3, ev1 ++ ev2 ++ [Event.sessionCommit, Event.printTrace, Event.sessionClose])

deriving instance DecidableEq for Except

/-- Outcome of one Task invocation. -/
structure Outcome where
  result : Except PyExc Value
  world : World
  events : List Event
deriving Repr, DecidableEq

/-- Task._run, lines 146-304.  The wrapped operation fn is a function of
the bound-argument dict (the reflective binding of getcallargs is applied
by the caller, per the modelling note in section 9 of the spec); isMain
says whether the wrapped operation is the process entry point. -/
def Task.run (fn : ArgDict → Except PyExc Value) (isMain : Bool)
    (noDump noLoad : Option (List String)) (loadNested : ArgDict → ArgDict)
    (taskDir : String) (argsDict : ArgDict) (w : World) : Outcome :=
  let p1 := dictPop argsDict "return_run_id" (Value.bool false)
  let p2 := dictPop p1.2 "silence_task" (Value.bool false)
  let ranked := envContains w.env "LOCAL_RANK" && envContains w.env "NODE_RANK" &&
    (pyNe (Value.str (envGetD w.env "LOCAL_RANK")) (Value.int 0) ||
     pyNe (Value.str (envGetD w.env "NODE_RANK")) (Value.int 0))
  if ranked then
    match envGet w.env "RANK_0_RUN_DIR" with
    | Except.error e => { result := Except.error e, world := w, events := [] }
    | Except.ok d =>
      let a := dictSet p2.2 "run_dir" (Value.str d)
      { result := fn (loadNested a), world := w, events := [] }
  else if pyTruthy p2.1 then
    { result := fn (loadNested p2.2), world := w, events := [] }
  else
    let r := runMain fn isMain noDump noLoad loadNested taskDir p1.1 p2.2 w
    { result := r.1, world := r.2.1, events := r.2.2 }

/-- Iterated invocation of the same task: run the task n times, threading
the world. -/
def runSeq (fn : ArgDict → Except PyExc Value) (isMain : Bool)
    (noDump noLoad : Option (List String)) (loadNested : ArgDict → ArgDict)
    (taskDir : String) (argsDict : ArgDict) : Nat → World → World
  | 0, w => w
  | Nat.succ n, w =>
    runSeq fn isMain noDump noLoad loadNested taskDir argsDict n
      (Task.run fn isMain noDump noLoad loadNested taskDir argsDict w).world

/-- The committed row of run k after a successful recorded run. -/
def successRow (taskDir : String) (k : Nat) : RunRow :=
  { id := k, status := RunStatus.success,
    run_dir := Option.some (get_run_dir taskDir k),
    git_logged := true, end_time := true }

/-- World reached after k successful recorded runs of a task, starting
from the task with no history (k = 0 is that empty initial world). -/
def worldAfter (taskDir : String) (k : Nat) : World :=
  World.mk
    (if k = 0 then [] else [("RANK_0_RUN_DIR", get_run_dir taskDir (k - 1))])
    k
    ((List.range k).map (successRow taskDir))
    ((List.range k).reverse)

/-! ## Artifact group dump (src/terra/__init__.py, Task.dump, lines 306-325)

Documents are the JSON trees that json_dump / json_load move; containers
are cons-encoded so every recursion is structural.  A serialized Artifact
appears as a reference carrying its id, matching the encoded form (the
encoder ran before the document reached dump). -/

/-- A JSON document as stored in a group file. -/
inductive Doc where
  | leafNull
  | leafPrim (n : Int)
  | leafRef (id : Nat)
  | arrNil
  | arrCons (hd : Doc) (tl : Doc)
  | objNil
  | objCons (k : String) (v : Doc) (rest : Doc)
deriving Repr, DecidableEq

/-- Modelled from the spec: rm_nested_artifacts is referenced from
terra.io but absent from the src/ copy of io.py; per sections 4.3 and 4.6
of the spec it walks the decoded structure and deletes every Artifact it
references.  This collects those references in traversal order. -/
def artifactIds : Doc → List Nat
  | Doc.leafNull => []
  | Doc.leafPrim _ => []
  | Doc.leafRef i => [i]
  | Doc.arrNil => []
  | Doc.arrCons hd tl => artifactIds hd ++ artifactIds tl
  | Doc.objNil => []
  | Doc.objCons _ v rest => artifactIds v ++ artifactIds rest

/-- Filesystem state that Task.dump touches: group documents by path and
the set of existing artifact backing files by id. -/
structure GroupFS where
  docs : List (String × Doc)
  artifacts : List Nat
deriving Repr, DecidableEq

/-- Side effects of Task.dump, in order of occurrence. -/
inductive DumpEvent where
  | loadDoc (path : String)
  | rmArtifact (id : Nat)
  | removeFile (path : String)
  | writeDoc (path : String)
deriving Repr, DecidableEq

/-- Lookup of a stored document by path. -/
def fsDoc? (fs : GroupFS) (path : String) : Option Doc :=
  ((fs.docs.find? (fun p => p.1 == path)).map (fun p => p.2))

/-- Task.dump: reserved-name validation, existence check with the
overwrite protocol (load old document, delete each referenced artifact
backing file, remove the old file), then the write of the new document.
The new document is stored as given: the values it references were
already externalized by the encoder. -/
def Task.dump (artifacts : Doc) (runDir : String) (groupName : String)
    (overwrite : Bool) (fs : GroupFS) :
    Except PyExc (GroupFS × List DumpEvent) :=
  if groupName == "outputs" || groupName == "inputs" then
    Except.error (PyExc.valueError
      "outputs and inputs are reserved artifact group names")
  else
    let path := runDir ++ "/" ++ groupName ++ ".json"
    if fs.docs.any (fun p => p.1 == path) then
      if overwrite then
        let old := (fsDoc? fs path).getD Doc.leafNull
        let fs1 := { fs with
          artifacts := fs.artifacts.filter (fun i => !((artifactIds old).contains i)) }
        let fs2 := { fs1 with docs := fs1.docs.filter (fun p => !(p.1 == path)) }
        Except.ok
          ({ fs2 with docs := fs2.docs ++ [(path, artifacts)] },
           [DumpEvent.loadDoc path] ++ (artifactIds old).map DumpEvent.rmArtifact ++
           [DumpEvent.removeFile path, DumpEvent.writeDoc path])
      else
        Except.error (PyExc.valueError
          ("Artifact group " ++ groupName ++ " already exists."))
    else
      Except.ok
        ({ fs with docs := fs.docs ++ [(path, artifacts)] },
         [DumpEvent.writeDoc path])

/-! ## Theorems -/

/-- Helper for C5: when every entry that passes the prefix filter also
parses as a Python integer literal, the comprehension returns exactly the
parsed qualifying entries, in order. -/
theorem collectRunIds_ok : ∀ (entries : List String),
    (∀ s ∈ entries, pyIsdigit (splitUnderscoreHead s) = true → (pyInt? s).isSome = true) →
    collectRunIds entries = Except.ok (parsedIds entries)
  | [], _ => rfl
  | s :: rest, h => by
    have hrest := collectRunIds_ok rest (fun t ht => h t (List.mem_cons_of_mem s ht))
    by_cases hd : pyIsdigit (splitUnderscoreHead s) = true
    · have hs := h s (List.mem_cons_self s rest) hd
      obtain ⟨n, hn⟩ := Option.isSome_iff_exists.mp hs
      simp [collectRunIds, parsedIds, hd, hn, hrest, Except.map]
    · simp [collectRunIds, parsedIds, hd, hrest]

/-- Claim C5 counterexample: the entry name 3_abc is non-numeric, yet the
latest-run-id query raises ValueError on it instead of ignoring it: the
filter only inspects the prefix before the first underscore, while int()
is applied to the full name. -/
theorem c5_counterexample :
    get_latest_run_id (Option.some ["3_abc"]) =
      Except.error (PyExc.valueError "invalid literal for int with base 10: 3_abc") := by
  decide

/-- Claim C5 (amended): the latest-run-id query returns none when the
_runs directory is absent, and otherwise the maximum of int(name) over
the entries whose prefix before the first underscore is all digits —
PROVIDED every such entry parses as a Python integer literal in full.  An
entry with a digit prefix whose full name does not parse (such as 3_abc)
makes the query raise ValueError instead of being ignored. -/
theorem c5_latest_run_id (entries : List String)
    (h : ∀ s ∈ entries, pyIsdigit (splitUnderscoreHead s) = true →
      (pyInt? s).isSome = true) :
    get_latest_run_id (Option.some entries) = Except.ok (pyMax (parsedIds entries)) ∧
    get_latest_run_id Option.none = Except.ok Option.none := by
  refine ⟨?_, rfl⟩
  simp [get_latest_run_id, collectRunIds_ok entries h, Except.map]

/-- Witness for c5_latest_run_id at a concrete listing: entries 10, 3 and
the non-qualifying name notes give latest id 10. -/
theorem c5_latest_run_id_witness :
    get_latest_run_id (Option.some ["10", "3", "notes"]) =
      Except.ok (pyMax (parsedIds ["10", "3", "notes"])) ∧
    get_latest_run_id Option.none = Except.ok Option.none :=
  c5_latest_run_id ["10", "3", "notes"] (by decide)

/-- Claim C7 (confirmed): generalized_write looks the writer up by the
exact runtime type of the value — a bool value is not served by an int
writer even though bool subclasses int — raises ValueError when no writer
is registered, returns the base path when the writer returned None and
the new path when it returned one; generalized_read likewise raises
ValueError when the requested type has no registered reader. -/
theorem c7_registry_exact (wreg : List (String × IoWriter))
    (rreg : List (String × IoReader)) (out : IoVal) (path readType : String) :
    (regLookup wreg (typeOf out) = Option.none →
      generalized_write wreg out path =
        Except.error (PyExc.valueError ("Type " ++ typeOf out ++ " not supported."))) ∧
    (∀ w : IoWriter, regLookup wreg (typeOf out) = Option.some w →
      generalized_write wreg out path =
        Except.ok (match w out path with
          | Option.some newPath => newPath
          | Option.none => path)) ∧
    (regLookup rreg readType = Option.none →
      generalized_read rreg path readType =
        Except.error (PyExc.valueError ("Object type " ++ readType ++ " not supported."))) ∧
    (∀ wfn : IoWriter,
      isInstanceOf (IoVal.vBool true) "int" = true ∧
      generalized_write [("int", wfn)] (IoVal.vBool true) path =
        Except.error (PyExc.valueError "Type bool not supported.")) := by
  refine ⟨?_, ?_, ?_, ?_⟩
  · intro h
    simp [generalized_write, h]
  · intro w h
    simp only [generalized_write, h]
    cases w out path <;> rfl
  · intro h
    simp [generalized_read, h]
  · intro wfn
    exact ⟨rfl, rfl⟩

/-- Witness for c7_registry_exact: with an empty registry, writing an int
fails with the unsupported-type error. -/
theorem c7_registry_exact_witness :
    generalized_write [] (IoVal.vInt 3) "base" =
      Except.error (PyExc.valueError "Type int not supported.") :=
  (c7_registry_exact [] [] (IoVal.vInt 3) "base" "DataFrame").1 rfl

/-- Helper for C9: after filtering out every document at the target path
and appending the new one, a lookup at that path finds the new one. -/
theorem find?_filter_append (docs : List (String × Doc)) (path : String) (doc : Doc) :
    ((docs.filter (fun p => !(p.1 == path))) ++ [(path, doc)]).find?
      (fun p => p.1 == path) = Option.some (path, doc) := by
  induction docs with
  | nil => simp
  | cons d rest ih =>
    by_cases hb : d.1 = path
    · simp [hb, ih]
    · simp [List.filter_cons, hb, ih]

/-- Claim C9 (confirmed): the artifact-group dump rejects the reserved
group names for every input; when the group file exists it fails without
overwrite, and with overwrite it loads the old document, deletes every
artifact it references (keeping artifacts it does not), removes the old
file and only then writes the new document, in that event order. -/
theorem c9_dump_group (doc : Doc) (runDir groupName : String) (ow : Bool)
    (fs : GroupFS) :
    ((groupName = "inputs" ∨ groupName = "outputs") →
      Task.dump doc runDir groupName ow fs =
        Except.error (PyExc.valueError
          "outputs and inputs are reserved artifact group names")) ∧
    (groupName ≠ "inputs" → groupName ≠ "outputs" →
      fs.docs.any (fun p => p.1 == runDir ++ "/" ++ groupName ++ ".json") = true →
      Task.dump doc runDir groupName false fs =
        Except.error (PyExc.valueError
          ("Artifact group " ++ groupName ++ " already exists."))) ∧
    (groupName ≠ "inputs" → groupName ≠ "outputs" →
      fs.docs.any (fun p => p.1 == runDir ++ "/" ++ groupName ++ ".json") = true →
      ∃ fs2 : GroupFS,
        Task.dump doc runDir groupName true fs =
          Except.ok (fs2,
            [DumpEvent.loadDoc (runDir ++ "/" ++ groupName ++ ".json")] ++
            (artifactIds ((fsDoc? fs (runDir ++ "/" ++ groupName ++ ".json")).getD
              Doc.leafNull)).map DumpEvent.rmArtifact ++
            [DumpEvent.removeFile (runDir ++ "/" ++ groupName ++ ".json"),
             DumpEvent.writeDoc (runDir ++ "/" ++ groupName ++ ".json")]) ∧
        (∀ i ∈ artifactIds ((fsDoc? fs (runDir ++ "/" ++ groupName ++ ".json")).getD
            Doc.leafNull), i ∉ fs2.artifacts) ∧
        (∀ i ∈ fs.artifacts,
          i ∉ artifactIds ((fsDoc? fs (runDir ++ "/" ++ groupName ++ ".json")).getD
            Doc.leafNull) → i ∈ fs2.artifacts) ∧
        fsDoc? fs2 (runDir ++ "/" ++ groupName ++ ".json") = Option.some doc) := by
  refine ⟨?_, ?_, ?_⟩
  · rintro (rfl | rfl) <;> simp [Task.dump]
  · intro h1 h2 hex
    have hg : (groupName == "outputs" || groupName == "inputs") = false := by
      simp only [Bool.or_eq_false_iff, beq_eq_false_iff_ne]
      exact ⟨h2, h1⟩
    simp [Task.dump, hg, hex]
  · intro h1 h2 hex
    have hg : (groupName == "outputs" || groupName == "inputs") = false := by
      simp only [Bool.or_eq_false_iff, beq_eq_false_iff_ne]
      exact ⟨h2, h1⟩
    refine ⟨GroupFS.mk
      ((fs.docs.filter (fun p => !(p.1 == runDir ++ "/" ++ groupName ++ ".json"))) ++
        [(runDir ++ "/" ++ groupName ++ ".json", doc)])
      (fs.artifacts.filter (fun i =>
        !((artifactIds ((fsDoc? fs (runDir ++ "/" ++ groupName ++ ".json")).getD
          Doc.leafNull)).contains i))), ?_, ?_, ?_, ?_⟩
    · simp [Task.dump, hg, hex]
    · intro i hi hmem
      rw [List.mem_filter] at hmem
      simp [List.contains, hi] at hmem
    · intro i hi hni
      exact List.mem_filter.mpr ⟨hi, by simp [List.contains, hni]⟩
    · exact congrArg (Option.map (fun p => p.2))
        (find?_filter_append fs.docs (runDir ++ "/" ++ groupName ++ ".json") doc)

/-- Witness for c9_dump_group: dumping under the reserved name inputs
fails on an empty filesystem. -/
theorem c9_dump_group_witness :
    Task.dump Doc.leafNull "run0" "inputs" false (GroupFS.mk [] []) =
      Except.error (PyExc.valueError
        "outputs and inputs are reserved artifact group names") :=
  (c9_dump_group Doc.leafNull "run0" "inputs" false (GroupFS.mk [] [])).1 (Or.inl rfl)

/-- Claim C2 failing input, evaluated: with LOCAL_RANK=0 and NODE_RANK=0 —
the designated primary process — the run is still silenced, because the
source compares the string environment values against the integer 0 with
!=, which is always true for a str.  The wrapped operation is called
directly with the published run directory substituted, no run is
registered and no recording side effect happens, contradicting the
documented intent (source comment, lines 163-164) that node 0 rank 0
performs the full lifecycle. -/
theorem c2_primary_process_silenced :
    Task.run (fun a => Except.ok ((dictGet? a "run_dir").getD Value.none)) false
      Option.none Option.none (fun a => a) "store/tasks/t"
      [("run_dir", Value.str "placeholder")]
      (World.mk [("LOCAL_RANK", "0"), ("NODE_RANK", "0"),
        ("RANK_0_RUN_DIR", "shared/run/dir")] 0 [] []) =
    Outcome.mk (Except.ok (Value.str "shared/run/dir"))
      (World.mk [("LOCAL_RANK", "0"), ("NODE_RANK", "0"),
        ("RANK_0_RUN_DIR", "shared/run/dir")] 0 [] []) [] := by
  decide

/-- Claim C3 failing input, evaluated: with return_run_id set and a
wrapped operation returning 5, outputs.json is written with 5, but the
call returns the bare run id 0 instead of the pair (0, 5): the rebinding
out = json_dump(out, ...) stores the None returned by json_dump, so the
later pairing test sees None.  This contradicts the source comment on
line 155, which documents return_run_id as returning (run_id,
returned_obj). -/
theorem c3_return_run_id_drops_result :
    (Task.run (fun _ => Except.ok (Value.int 5)) false Option.none Option.none
      (fun a => a) "t" [("return_run_id", Value.bool true)]
      (World.mk [] 0 [] [])).result = Except.ok (Value.int 0) ∧
    (Task.run (fun _ => Except.ok (Value.int 5)) false Option.none Option.none
      (fun a => a) "t" [("return_run_id", Value.bool true)]
      (World.mk [] 0 [] [])).events.contains (Event.outputsWrite 0 (Value.int 5)) = true := by
  decide

/-- Claim C1 counterexample: on a run-directory collision the claimed
absence of further side effects fails — the generic exception handler
still emits an error notification, and the index row does not stay at the
initial in_progress registration but is committed as failure with an end
time. -/
theorem c1_counterexample :
    (Task.run (fun _ => Except.ok Value.none) false Option.none Option.none
      (fun a => a) "t" [] (World.mk [] 0 [] [0])).events.contains
        (Event.notifyError 0) = true ∧
    (Task.run (fun _ => Except.ok Value.none) false Option.none Option.none
      (fun a => a) "t" [] (World.mk [] 0 [] [0])).world.runs =
      [RunRow.mk 0 RunStatus.failure Option.none false true] := by
  decide

/-- Committing a row whose id is not yet in the index appends it. -/
theorem upsertRow_fresh (r : RunRow) : ∀ (L : List RunRow),
    (∀ q ∈ L, q.id ≠ r.id) → upsertRow r L = L ++ [r]
  | [], _ => rfl
  | q :: rest, h => by
    have hq : (q.id == r.id) = false :=
      beq_eq_false_iff_ne.mpr (h q (List.mem_cons_self q rest))
    simp [upsertRow, hq,
      upsertRow_fresh r rest (fun p hp => h p (List.mem_cons_of_mem q hp))]

/-- Recommitting the freshly appended row replaces exactly it. -/
theorem upsertRow_replace (r r0 : RunRow) (hid : r.id = r0.id) :
    ∀ (L : List RunRow), (∀ q ∈ L, q.id ≠ r0.id) →
    upsertRow r (L ++ [r0]) = L ++ [r]
  | [], _ => by simp [upsertRow, hid]
  | q :: rest, h => by
    have hq : (q.id == r.id) = false := by
      rw [hid]
      exact beq_eq_false_iff_ne.mpr (h q (List.mem_cons_self q rest))
    simp [upsertRow, hq,
      upsertRow_replace r r0 hid rest (fun p hp => h p (List.mem_cons_of_mem q hp))]

/-- When the rank environment is not populated and the silencing flag is
falsy, Task._run proceeds to the recording path. -/
theorem run_unsilenced (fn : ArgDict → Except PyExc Value) (isMain : Bool)
    (noDump noLoad : Option (List String)) (loadNested : ArgDict → ArgDict)
    (taskDir : String) (args : ArgDict) (w : World)
    (henv : envContains w.env "LOCAL_RANK" = false)
    (hs : pyTruthy (dictPop (dictPop args "return_run_id" (Value.bool false)).2
      "silence_task" (Value.bool false)).1 = false) :
    Task.run fn isMain noDump noLoad loadNested taskDir args w =
      Outcome.mk
        (runMain fn isMain noDump noLoad loadNested taskDir
          (dictPop args "return_run_id" (Value.bool false)).1
          (dictPop (dictPop args "return_run_id" (Value.bool false)).2
            "silence_task" (Value.bool false)).2 w).1
        (runMain fn isMain noDump noLoad loadNested taskDir
          (dictPop args "return_run_id" (Value.bool false)).1
          (dictPop (dictPop args "return_run_id" (Value.bool false)).2
            "silence_task" (Value.bool false)).2 w).2.1
        (runMain fn isMain noDump noLoad loadNested taskDir
          (dictPop args "return_run_id" (Value.bool false)).1
          (dictPop (dictPop args "return_run_id" (Value.bool false)).2
            "silence_task" (Value.bool false)).2 w).2.2 := by
  simp [Task.run, henv, hs]

/-- Full characterization of the recording path when the allocated run
directory already exists: the ValueError is raised and routed through the
generic handler, which notifies the error and commits the row as failure
with an end time; no directory creation, metadata, inputs, log or
notification initialization happens. -/
theorem runMain_collision (fn : ArgDict → Except PyExc Value) (isMain : Bool)
    (noDump noLoad : Option (List String)) (loadNested : ArgDict → ArgDict)
    (taskDir : String) (rri : Value) (args : ArgDict) (w : World)
    (hcol : w.fsDirs.contains w.nextRunId = true)
    (hfresh : ∀ q ∈ w.runs, q.id ≠ w.nextRunId) :
    runMain fn isMain noDump noLoad loadNested taskDir rri args w =
      (Except.error (PyExc.valueError
          ("Run already exists at " ++ get_run_dir taskDir w.nextRunId ++ ".")),
       World.mk (envSet w.env "RANK_0_RUN_DIR" (get_run_dir taskDir w.nextRunId))
         (w.nextRunId + 1)
         (w.runs ++ [RunRow.mk w.nextRunId RunStatus.failure Option.none false true])
         w.fsDirs,
       (if dictContains args "terra_config"
          then [Event.configUpdate] else []) ++
       [Event.sessionOpen, Event.sessionCommit,
        Event.envPublish (get_run_dir taskDir w.nextRunId),
        Event.notifyError w.nextRunId, Event.sessionCommit, Event.printTrace,
        Event.sessionClose]) := by
  have hmem : w.nextRunId ∈ w.fsDirs := by simpa using hcol
  have h1 := upsertRow_fresh
    (RunRow.mk w.nextRunId RunStatus.in_progress Option.none false false) w.runs hfresh
  have h2 := upsertRow_replace
    (RunRow.mk w.nextRunId RunStatus.failure Option.none false true)
    (RunRow.mk w.nextRunId RunStatus.in_progress Option.none false false) rfl
    w.runs hfresh
  simp [runMain, runTry, createRunId, commitRun, hmem, h1, h2]

/-- Claim C1 (amended): a non-silenced invocation whose target run
directory already exists fails with the RunCollision ValueError; it
performs no metadata write, no inputs write, no log initialization, no
directory creation and no start/completion notification — but, through
the generic exception handler, it DOES emit an error notification, and
the index row does not remain at the in_progress registration: it is
committed as failure with an end time before the error is re-raised. -/
theorem c1_collision_aborts (fn : ArgDict → Except PyExc Value) (isMain : Bool)
    (noDump noLoad : Option (List String)) (loadNested : ArgDict → ArgDict)
    (taskDir : String) (args : ArgDict) (w : World)
    (henv : envContains w.env "LOCAL_RANK" = false)
    (hs : pyTruthy (dictPop (dictPop args "return_run_id" (Value.bool false)).2
      "silence_task" (Value.bool false)).1 = false)
    (hcol : w.fsDirs.contains w.nextRunId = true)
    (hfresh : ∀ q ∈ w.runs, q.id ≠ w.nextRunId) :
    (Task.run fn isMain noDump noLoad loadNested taskDir args w).result =
      Except.error (PyExc.valueError
        ("Run already exists at " ++ get_run_dir taskDir w.nextRunId ++ ".")) ∧
    (Task.run fn isMain noDump noLoad loadNested taskDir args w).events.all
      (fun e => !e.isMetaWrite && !e.isInputsWrite && !e.isLogInit &&
        !e.isDirCreate && !e.isNotifyInit && !e.isNotifyCompleted) = true ∧
    (Task.run fn isMain noDump noLoad loadNested taskDir args w).events.contains
      (Event.notifyError w.nextRunId) = true ∧
    (Task.run fn isMain noDump noLoad loadNested taskDir args w).world.runs =
      w.runs ++ [RunRow.mk w.nextRunId RunStatus.failure Option.none false true] := by
  rw [run_unsilenced fn isMain noDump noLoad loadNested taskDir args w henv hs]
  rw [runMain_collision fn isMain noDump noLoad loadNested taskDir
    (dictPop args "return_run_id" (Value.bool false)).1
    (dictPop (dictPop args "return_run_id" (Value.bool false)).2
      "silence_task" (Value.bool false)).2 w hcol hfresh]
  cases hc : dictContains (dictPop (dictPop args "return_run_id" (Value.bool false)).2
      "silence_task" (Value.bool false)).2 "terra_config" <;>
    simp [hc, Event.isMetaWrite, Event.isInputsWrite, Event.isLogInit,
      Event.isDirCreate, Event.isNotifyInit, Event.isNotifyCompleted]

/-- Witness for c1_collision_aborts: concrete collision at run id 0. -/
theorem c1_collision_aborts_witness :
    (Task.run (fun _ => Except.ok Value.none) false Option.none Option.none
      (fun a => a) "t" [] (World.mk [] 0 [] [0])).result =
      Except.error (PyExc.valueError
        ("Run already exists at " ++ get_run_dir "t" 0 ++ ".")) ∧
    (Task.run (fun _ => Except.ok Value.none) false Option.none Option.none
      (fun a => a) "t" [] (World.mk [] 0 [] [0])).events.all
      (fun e => !e.isMetaWrite && !e.isInputsWrite && !e.isLogInit &&
        !e.isDirCreate && !e.isNotifyInit && !e.isNotifyCompleted) = true ∧
    (Task.run (fun _ => Except.ok Value.none) false Option.none Option.none
      (fun a => a) "t" [] (World.mk [] 0 [] [0])).events.contains
      (Event.notifyError 0) = true ∧
    (Task.run (fun _ => Except.ok Value.none) false Option.none Option.none
      (fun a => a) "t" [] (World.mk [] 0 [] [0])).world.runs =
      [] ++ [RunRow.mk 0 RunStatus.failure Option.none false true] :=
  c1_collision_aborts (fun _ => Except.ok Value.none) false Option.none Option.none
    (fun a => a) "t" [] (World.mk [] 0 [] [0]) (by decide) (by decide) (by decide)
    (by simp)

/-- Full characterization of the recording path when the wrapped
operation itself raises: the row is committed with the terminal status
determined by the exception kind and an end time, outputs.json is never
reached, and the original exception is the result. -/
theorem runMain_fnError (fn : ArgDict → Except PyExc Value) (isMain : Bool)
    (noDump noLoad : Option (List String)) (loadNested : ArgDict → ArgDict)
    (taskDir : String) (rri : Value) (args : ArgDict) (w : World) (e : PyExc)
    (hnocol : w.fsDirs.contains w.nextRunId = false)
    (hfresh : ∀ q ∈ w.runs, q.id ≠ w.nextRunId)
    (hres : ∀ a : ArgDict, ∃ b : ArgDict,
      resolveArgs noLoad loadNested a = Except.ok b)
    (hfn : ∀ a : ArgDict, fn a = Except.error e) :
    runMain fn isMain noDump noLoad loadNested taskDir rri args w =
      (Except.error e,
       World.mk (envSet w.env "RANK_0_RUN_DIR" (get_run_dir taskDir w.nextRunId))
         (w.nextRunId + 1)
         (w.runs ++ [RunRow.mk w.nextRunId
           (if e = PyExc.keyboardInterrupt then RunStatus.interrupted
            else RunStatus.failure)
           (Option.some (get_run_dir taskDir w.nextRunId)) true true])
         (w.nextRunId :: w.fsDirs),
       (if dictContains args "terra_config" then [Event.configUpdate] else []) ++
       [Event.sessionOpen, Event.sessionCommit] ++
       ((if isMain then
           [Event.envPublish (get_run_dir taskDir w.nextRunId),
            Event.dirCreate w.nextRunId, Event.gitLog w.nextRunId,
            Event.srcLog w.nextRunId]
         else
           [Event.envPublish (get_run_dir taskDir w.nextRunId),
            Event.dirCreate w.nextRunId, Event.gitLog w.nextRunId]) ++
        [Event.sessionCommit, Event.metaWrite w.nextRunId,
         Event.inputsWrite w.nextRunId (argsToDump noDump
           (if dictContains (dictPop args "terra_config" Value.none).2 "run_dir" then
             dictSet (dictPop args "terra_config" Value.none).2 "run_dir"
               (Value.str (get_run_dir taskDir w.nextRunId))
           else (dictPop args "terra_config" Value.none).2)),
         Event.logInit w.nextRunId, Event.notifyInit w.nextRunId,
         Event.printStart w.nextRunId]) ++
       [Event.notifyError w.nextRunId, Event.sessionCommit, Event.printTrace,
        Event.sessionClose]) := by
  have hmem : w.nextRunId ∉ w.fsDirs := by
    intro hin
    rw [List.contains_eq_any_beq] at hnocol
    have : w.fsDirs.any (w.nextRunId == ·) = true :=
      List.any_eq_true.mpr ⟨w.nextRunId, hin, by simp⟩
    rw [this] at hnocol
    exact absurd hnocol (by simp)
  obtain ⟨b, hb⟩ := hres
    (if dictContains (dictPop args "terra_config" Value.none).2 "run_dir" then
      dictSet (dictPop args "terra_config" Value.none).2 "run_dir"
        (Value.str (get_run_dir taskDir w.nextRunId))
    else (dictPop args "terra_config" Value.none).2)
  have h1 := upsertRow_fresh
    (RunRow.mk w.nextRunId RunStatus.in_progress Option.none false false) w.runs hfresh
  have h2 := upsertRow_replace
    (RunRow.mk w.nextRunId RunStatus.in_progress
      (Option.some (get_run_dir taskDir w.nextRunId)) true false)
    (RunRow.mk w.nextRunId RunStatus.in_progress Option.none false false) rfl
    w.runs hfresh
  have h3 := upsertRow_replace
    (RunRow.mk w.nextRunId
      (if e = PyExc.keyboardInterrupt then RunStatus.interrupted
       else RunStatus.failure)
      (Option.some (get_run_dir taskDir w.nextRunId)) true true)
    (RunRow.mk w.nextRunId RunStatus.in_progress
      (Option.some (get_run_dir taskDir w.nextRunId)) true false) rfl
    w.runs hfresh
  simp [runMain, runTry, createRunId, commitRun, hmem, hb, hfn, h1, h2, h3]

/-- Claim C6 (confirmed): when the wrapped operation raises, the run row
is committed with terminal status interrupted exactly for the interactive
cancellation signal (KeyboardInterrupt) and failure otherwise, the end
time is recorded, the caller observes the original exception unchanged,
and outputs.json is never written. -/
theorem c6_operation_raises (fn : ArgDict → Except PyExc Value) (isMain : Bool)
    (noDump noLoad : Option (List String)) (loadNested : ArgDict → ArgDict)
    (taskDir : String) (args : ArgDict) (w : World) (e : PyExc)
    (henv : envContains w.env "LOCAL_RANK" = false)
    (hs : pyTruthy (dictPop (dictPop args "return_run_id" (Value.bool false)).2
      "silence_task" (Value.bool false)).1 = false)
    (hnocol : w.fsDirs.contains w.nextRunId = false)
    (hfresh : ∀ q ∈ w.runs, q.id ≠ w.nextRunId)
    (hres : ∀ a : ArgDict, ∃ b : ArgDict,
      resolveArgs noLoad loadNested a = Except.ok b)
    (hfn : ∀ a : ArgDict, fn a = Except.error e) :
    (Task.run fn isMain noDump noLoad loadNested taskDir args w).result =
      Except.error e ∧
    (Task.run fn isMain noDump noLoad loadNested taskDir args w).world.runs =
      w.runs ++ [RunRow.mk w.nextRunId
        (if e = PyExc.keyboardInterrupt then RunStatus.interrupted
         else RunStatus.failure)
        (Option.some (get_run_dir taskDir w.nextRunId)) true true] ∧
    (Task.run fn isMain noDump noLoad loadNested taskDir args w).events.all
      (fun ev => !ev.isOutputsWrite) = true := by
  rw [run_unsilenced fn isMain noDump noLoad loadNested taskDir args w henv hs]
  rw [runMain_fnError fn isMain noDump noLoad loadNested taskDir
    (dictPop args "return_run_id" (Value.bool false)).1
    (dictPop (dictPop args "return_run_id" (Value.bool false)).2
      "silence_task" (Value.bool false)).2 w e hnocol hfresh hres hfn]
  refine ⟨rfl, rfl, ?_⟩
  cases hc : dictContains (dictPop (dictPop args "return_run_id" (Value.bool false)).2
      "silence_task" (Value.bool false)).2 "terra_config" <;>
    cases isMain <;> simp [hc, Event.isOutputsWrite]

/-- Witness for c6_operation_raises: a generic exception ends the run as
failure, a KeyboardInterrupt ends it as interrupted, in both cases with
the exception re-raised and no outputs write. -/
theorem c6_operation_raises_witness :
    ((Task.run (fun _ => Except.error (PyExc.exception 7)) false Option.none
        Option.none (fun a => a) "t" [] (World.mk [] 0 [] [])).result =
      Except.error (PyExc.exception 7) ∧
     (Task.run (fun _ => Except.error (PyExc.exception 7)) false Option.none
        Option.none (fun a => a) "t" [] (World.mk [] 0 [] [])).world.runs =
      [] ++ [RunRow.mk 0
        (if PyExc.exception 7 = PyExc.keyboardInterrupt then RunStatus.interrupted
         else RunStatus.failure)
        (Option.some (get_run_dir "t" 0)) true true] ∧
     (Task.run (fun _ => Except.error (PyExc.exception 7)) false Option.none
        Option.none (fun a => a) "t" [] (World.mk [] 0 [] [])).events.all
      (fun ev => !ev.isOutputsWrite) = true) ∧
    ((Task.run (fun _ => Except.error PyExc.keyboardInterrupt) false Option.none
        Option.none (fun a => a) "t" [] (World.mk [] 0 [] [])).result =
      Except.error PyExc.keyboardInterrupt ∧
     (Task.run (fun _ => Except.error PyExc.keyboardInterrupt) false Option.none
        Option.none (fun a => a) "t" [] (World.mk [] 0 [] [])).world.runs =
      [] ++ [RunRow.mk 0
        (if PyExc.keyboardInterrupt = PyExc.keyboardInterrupt then RunStatus.interrupted
         else RunStatus.failure)
        (Option.some (get_run_dir "t" 0)) true true] ∧
     (Task.run (fun _ => Except.error PyExc.keyboardInterrupt) false Option.none
        Option.none (fun a => a) "t" [] (World.mk [] 0 [] [])).events.all
      (fun ev => !ev.isOutputsWrite) = true) :=
  ⟨c6_operation_raises (fun _ => Except.error (PyExc.exception 7)) false
      Option.none Option.none (fun a => a) "t" [] (World.mk [] 0 [] [])
      (PyExc.exception 7) (by decide) (by decide) (by decide) (by simp)
      (fun a => ⟨a, rfl⟩) (fun a => rfl),
   c6_operation_raises (fun _ => Except.error PyExc.keyboardInterrupt) false
      Option.none Option.none (fun a => a) "t" [] (World.mk [] 0 [] [])
      PyExc.keyboardInterrupt (by decide) (by decide) (by decide) (by simp)
      (fun a => ⟨a, rfl⟩) (fun a => rfl)⟩

/-- Full characterization of a successful recorded run: the row is
committed as success with an end time, outputs.json is written exactly
when the operation returned a non-None value, and the value handed back
is the None returned by json_dump — or the bare run id when the
return_run_id flag was passed. -/
theorem runMain_fnOk (gn : ArgDict → Value) (isMain : Bool)
    (noDump noLoad : Option (List String)) (loadNested : ArgDict → ArgDict)
    (taskDir : String) (rri : Value) (args : ArgDict) (w : World) (b : ArgDict)
    (hnocol : w.fsDirs.contains w.nextRunId = false)
    (hfresh : ∀ q ∈ w.runs, q.id ≠ w.nextRunId)
    (hb : resolveArgs noLoad loadNested
      (if dictContains (dictPop args "terra_config" Value.none).2 "run_dir" then
        dictSet (dictPop args "terra_config" Value.none).2 "run_dir"
          (Value.str (get_run_dir taskDir w.nextRunId))
      else (dictPop args "terra_config" Value.none).2) = Except.ok b) :
    runMain (fun a => Except.ok (gn a)) isMain noDump noLoad loadNested taskDir
        rri args w =
      (Except.ok (if pyTruthy rri then Value.int (Int.ofNat w.nextRunId)
                  else Value.none),
       World.mk (envSet w.env "RANK_0_RUN_DIR" (get_run_dir taskDir w.nextRunId))
         (w.nextRunId + 1)
         (w.runs ++ [RunRow.mk w.nextRunId RunStatus.success
           (Option.some (get_run_dir taskDir w.nextRunId)) true true])
         (w.nextRunId :: w.fsDirs),
       (if dictContains args "terra_config" then [Event.configUpdate] else []) ++
       [Event.sessionOpen, Event.sessionCommit] ++
       ((if isMain then
           [Event.envPublish (get_run_dir taskDir w.nextRunId),
            Event.dirCreate w.nextRunId, Event.gitLog w.nextRunId,
            Event.srcLog w.nextRunId]
         else
           [Event.envPublish (get_run_dir taskDir w.nextRunId),
            Event.dirCreate w.nextRunId, Event.gitLog w.nextRunId]) ++
        [Event.sessionCommit, Event.metaWrite w.nextRunId,
         Event.inputsWrite w.nextRunId (argsToDump noDump
           (if dictContains (dictPop args "terra_config" Value.none).2 "run_dir" then
             dictSet (dictPop args "terra_config" Value.none).2 "run_dir"
               (Value.str (get_run_dir taskDir w.nextRunId))
           else (dictPop args "terra_config" Value.none).2)),
         Event.logInit w.nextRunId, Event.notifyInit w.nextRunId,
         Event.printStart w.nextRunId] ++
        (if gn b = Value.none then []
         else [Event.outputsWrite w.nextRunId (gn b)]) ++
        [Event.notifyCompleted w.nextRunId, Event.sessionCommit]) ++
       [Event.sessionClose]) := by
  have hmem : w.nextRunId ∉ w.fsDirs := by
    intro hin
    rw [List.contains_eq_any_beq] at hnocol
    have : w.fsDirs.any (w.nextRunId == ·) = true :=
      List.any_eq_true.mpr ⟨w.nextRunId, hin, by simp⟩
    rw [this] at hnocol
    exact absurd hnocol (by simp)
  have h1 := upsertRow_fresh
    (RunRow.mk w.nextRunId RunStatus.in_progress Option.none false false) w.runs hfresh
  have h2 := upsertRow_replace
    (RunRow.mk w.nextRunId RunStatus.in_progress
      (Option.some (get_run_dir taskDir w.nextRunId)) true false)
    (RunRow.mk w.nextRunId RunStatus.in_progress Option.none false false) rfl
    w.runs hfresh
  have h3 := upsertRow_replace
    (RunRow.mk w.nextRunId RunStatus.success
      (Option.some (get_run_dir taskDir w.nextRunId)) true true)
    (RunRow.mk w.nextRunId RunStatus.in_progress
      (Option.some (get_run_dir taskDir w.nextRunId)) true false) rfl
    w.runs hfresh
  by_cases hgb : gn b = Value.none <;>
    simp [runMain, runTry, createRunId, commitRun, json_dump, hmem, hb, h1, h2,
      h3, hgb]

/-- Claim C10 (confirmed): without the return_run_id flag, a recorded
invocation whose wrapped operation returns a non-None value returns None
to the caller: after outputs.json is written, the result variable holds
the return value of json_dump (which has no return statement) instead of
the operation returned value. -/
theorem c10_operation_result_not_returned (v : Value) (isMain : Bool)
    (noDump noLoad : Option (List String)) (loadNested : ArgDict → ArgDict)
    (taskDir : String) (args : ArgDict) (w : World)
    (henv : envContains w.env "LOCAL_RANK" = false)
    (hs : pyTruthy (dictPop (dictPop args "return_run_id" (Value.bool false)).2
      "silence_task" (Value.bool false)).1 = false)
    (hrri : pyTruthy (dictPop args "return_run_id" (Value.bool false)).1 = false)
    (hnocol : w.fsDirs.contains w.nextRunId = false)
    (hfresh : ∀ q ∈ w.runs, q.id ≠ w.nextRunId)
    (hres : ∀ a : ArgDict, ∃ b : ArgDict,
      resolveArgs noLoad loadNested a = Except.ok b)
    (hv : v ≠ Value.none) :
    (Task.run (fun _ => Except.ok v) isMain noDump noLoad loadNested taskDir
      args w).result = Except.ok Value.none ∧
    Event.outputsWrite w.nextRunId v ∈
      (Task.run (fun _ => Except.ok v) isMain noDump noLoad loadNested taskDir
        args w).events := by
  obtain ⟨b, hb⟩ := hres
    (if dictContains (dictPop (dictPop (dictPop args "return_run_id"
        (Value.bool false)).2 "silence_task" (Value.bool false)).2
        "terra_config" Value.none).2 "run_dir" then
      dictSet (dictPop (dictPop (dictPop args "return_run_id"
        (Value.bool false)).2 "silence_task" (Value.bool false)).2
        "terra_config" Value.none).2 "run_dir"
        (Value.str (get_run_dir taskDir w.nextRunId))
    else (dictPop (dictPop (dictPop args "return_run_id"
        (Value.bool false)).2 "silence_task" (Value.bool false)).2
        "terra_config" Value.none).2)
  rw [run_unsilenced (fun _ => Except.ok v) isMain noDump noLoad loadNested
    taskDir args w henv hs]
  rw [runMain_fnOk (fun _ => v) isMain noDump noLoad loadNested taskDir
    (dictPop args "return_run_id" (Value.bool false)).1
    (dictPop (dictPop args "return_run_id" (Value.bool false)).2
      "silence_task" (Value.bool false)).2 w b hnocol hfresh hb]
  refine ⟨by simp [hrri], ?_⟩
  simp [hv]

/-- Witness for c10_operation_result_not_returned: the operation returns
5, the call returns None after writing outputs.json with 5. -/
theorem c10_operation_result_not_returned_witness :
    (Task.run (fun _ => Except.ok (Value.int 5)) false Option.none Option.none
      (fun a => a) "t" [] (World.mk [] 0 [] [])).result = Except.ok Value.none ∧
    Event.outputsWrite 0 (Value.int 5) ∈
      (Task.run (fun _ => Except.ok (Value.int 5)) false Option.none Option.none
        (fun a => a) "t" [] (World.mk [] 0 [] [])).events :=
  c10_operation_result_not_returned (Value.int 5) false Option.none Option.none
    (fun a => a) "t" [] (World.mk [] 0 [] []) (by decide) (by decide) (by decide)
    (by decide) (by simp) (fun a => ⟨a, rfl⟩) (by decide)

/-- One successful recorded run advances the world of a task from history
length k to history length k + 1. -/
theorem run_step (gn : ArgDict → Value) (isMain : Bool)
    (noDump noLoad : Option (List String)) (loadNested : ArgDict → ArgDict)
    (taskDir : String) (args : ArgDict) (k : Nat)
    (hs : pyTruthy (dictPop (dictPop args "return_run_id" (Value.bool false)).2
      "silence_task" (Value.bool false)).1 = false)
    (hres : ∀ a : ArgDict, ∃ b : ArgDict,
      resolveArgs noLoad loadNested a = Except.ok b) :
    (Task.run (fun a => Except.ok (gn a)) isMain noDump noLoad loadNested
      taskDir args (worldAfter taskDir k)).world = worldAfter taskDir (k + 1) := by
  have henv : envContains (worldAfter taskDir k).env "LOCAL_RANK" = false := by
    by_cases hk : k = 0 <;> simp [worldAfter, envContains, hk]
  have hnocol : (worldAfter taskDir k).fsDirs.contains
      (worldAfter taskDir k).nextRunId = false := by
    simp [worldAfter, List.contains, List.mem_reverse]
  have hfresh : ∀ q ∈ (worldAfter taskDir k).runs,
      q.id ≠ (worldAfter taskDir k).nextRunId := by
    intro q hq
    simp only [worldAfter, List.mem_map, List.mem_range] at hq
    obtain ⟨i, hi, rfl⟩ := hq
    simpa [successRow, worldAfter] using Nat.ne_of_lt hi
  obtain ⟨b, hb⟩ := hres
    (if dictContains (dictPop (dictPop (dictPop args "return_run_id"
        (Value.bool false)).2 "silence_task" (Value.bool false)).2
        "terra_config" Value.none).2 "run_dir" then
      dictSet (dictPop (dictPop (dictPop args "return_run_id"
        (Value.bool false)).2 "silence_task" (Value.bool false)).2
        "terra_config" Value.none).2 "run_dir"
        (Value.str (get_run_dir taskDir k))
    else (dictPop (dictPop (dictPop args "return_run_id"
        (Value.bool false)).2 "silence_task" (Value.bool false)).2
        "terra_config" Value.none).2)
  rw [run_unsilenced (fun a => Except.ok (gn a)) isMain noDump noLoad loadNested
    taskDir args (worldAfter taskDir k) henv hs]
  rw [runMain_fnOk gn isMain noDump noLoad loadNested taskDir
    (dictPop args "return_run_id" (Value.bool false)).1
    (dictPop (dictPop args "return_run_id" (Value.bool false)).2
      "silence_task" (Value.bool false)).2 (worldAfter taskDir k) b hnocol
    hfresh hb]
  by_cases hk : k = 0 <;>
    simp [worldAfter, hk, successRow, List.range_succ, envSet]

/-- Iterating successful recorded runs extends the history linearly. -/
theorem runSeq_worldAfter (gn : ArgDict → Value) (isMain : Bool)
    (noDump noLoad : Option (List String)) (loadNested : ArgDict → ArgDict)
    (taskDir : String) (args : ArgDict)
    (hs : pyTruthy (dictPop (dictPop args "return_run_id" (Value.bool false)).2
      "silence_task" (Value.bool false)).1 = false)
    (hres : ∀ a : ArgDict, ∃ b : ArgDict,
      resolveArgs noLoad loadNested a = Except.ok b) :
    ∀ (n k : Nat),
    runSeq (fun a => Except.ok (gn a)) isMain noDump noLoad loadNested taskDir
      args n (worldAfter taskDir k) = worldAfter taskDir (k + n)
  | 0, k => rfl
  | Nat.succ n, k => by
    rw [runSeq,
      run_step gn isMain noDump noLoad loadNested taskDir args k hs hres,
      runSeq_worldAfter gn isMain noDump noLoad loadNested taskDir args hs hres
        n (k + 1)]
    congr 1
    omega

/-- Claim C4 (confirmed over the spec-modelled index id assignment): N
successful recorded runs of a task starting from an empty run history
commit rows whose run ids are exactly 0, 1, ..., N-1 in creation order —
in particular non-negative, unique, strictly increasing and gap-free —
and all of them terminal in status success. -/
theorem c4_sequential_run_ids (gn : ArgDict → Value) (isMain : Bool)
    (noDump noLoad : Option (List String)) (loadNested : ArgDict → ArgDict)
    (taskDir : String) (args : ArgDict) (N : Nat)
    (hs : pyTruthy (dictPop (dictPop args "return_run_id" (Value.bool false)).2
      "silence_task" (Value.bool false)).1 = false)
    (hres : ∀ a : ArgDict, ∃ b : ArgDict,
      resolveArgs noLoad loadNested a = Except.ok b) :
    (runSeq (fun a => Except.ok (gn a)) isMain noDump noLoad loadNested taskDir
      args N (worldAfter taskDir 0)).runs.map (fun r => r.id) = List.range N ∧
    (runSeq (fun a => Except.ok (gn a)) isMain noDump noLoad loadNested taskDir
      args N (worldAfter taskDir 0)).runs.all
      (fun r => r.status == RunStatus.success) = true := by
  rw [runSeq_worldAfter gn isMain noDump noLoad loadNested taskDir args hs hres
    N 0]
  constructor
  · simp [worldAfter, successRow, List.map_map]
    exact List.map_id (List.range N)
  · simp [worldAfter, successRow, List.all_map]

/-- Witness for c4_sequential_run_ids: three runs assign ids 0, 1, 2. -/
theorem c4_sequential_run_ids_witness :
    (runSeq (fun a => Except.ok ((fun _ => Value.int 7) a)) false Option.none
      Option.none (fun a => a) "t" [] 3 (worldAfter "t" 0)).runs.map
      (fun r => r.id) = List.range 3 ∧
    (runSeq (fun a => Except.ok ((fun _ => Value.int 7) a)) false Option.none
      Option.none (fun a => a) "t" [] 3 (worldAfter "t" 0)).runs.all
      (fun r => r.status == RunStatus.success) = true :=
  c4_sequential_run_ids (fun _ => Value.int 7) false Option.none Option.none
    (fun a => a) "t" [] 3 (by decide) (fun a => ⟨a, rfl⟩)
